import Mathlib

/-!
Shallow embedding of the similarity-query core of `src/processor/app.py`
(The-Focus-AI/image-browser): the Flask routes `index` (text search) and
`neighbors` (exemplar search) over a pgvector-backed `image_embeddings`
table, together with the SQL each route issues.
-/

namespace ImageBrowser

/-- An embedding vector as stored in the `image_embeddings` table.
Coordinates are modelled as exact integers (the ranking logic is agnostic to the coordinate field). -/
abbrev Embedding := List ℤ

/-- One row of the `image_embeddings` table: a file name and its embedding. -/
structure Row where
  file_name : String
  embedding : Embedding
deriving DecidableEq, Repr

/-- The `image_embeddings` table in its stable iteration (row) order. -/
abbrev Table := List Row

/-- Python's `str.strip()`: drop leading and trailing whitespace. -/
def pyStrip (s : String) : String :=
  String.mk (((s.data.dropWhile Char.isWhitespace).reverse.dropWhile Char.isWhitespace).reverse)

/-- The pgvector operator `a <#> b`: the negative inner product of the two
vectors, the "distance" the SQL orders by (smaller = more similar). -/
def ipDist (a b : Embedding) : ℤ := -(List.zipWith (fun x y => x * y) a b).sum

/-- The comparison realising `ORDER BY distance ASC` on annotated rows. -/
def distR (a b : String × ℤ) : Prop := a.2 ≤ b.2

instance : DecidableRel distR := fun a b => inferInstanceAs (Decidable (a.2 ≤ b.2))

instance : IsTotal (String × ℤ) distR := ⟨fun a b => le_total a.2 b.2⟩

instance : IsTrans (String × ℤ) distR := ⟨fun _ _ _ h h2 => le_trans h h2⟩

/-- `SELECT file_name, embedding <#> v AS distance` over a list of rows,
in row order. -/
def annotate (rows : List Row) (v : Embedding) : List (String × ℤ) :=
  rows.map (fun r => (r.file_name, ipDist r.embedding v))

/-- `ORDER BY distance ASC LIMIT 30` over annotated rows: a stable sort by
ascending distance (ties keep row order) cut to the first 30. -/
def rankRows (rows : List Row) (v : Embedding) : List (String × ℤ) :=
  ((annotate rows v).insertionSort distR).take 30

/-- The query issued by `index`:
`SELECT file_name, embedding <#> v AS distance FROM image_embeddings
 ORDER BY distance ASC LIMIT 30`, projected to the file names
(`images = [row[0] for row in results]`). -/
def nearestQuery (t : Table) (v : Embedding) : List String :=
  (rankRows t v).map Prod.fst

/-- The lookup issued by `neighbors`:
`SELECT embedding FROM image_embeddings WHERE file_name = fn LIMIT 1`,
then `row[0]` of `fetchone()` when a row exists. -/
def lookupQuery (t : Table) (fn : String) : Option Embedding :=
  (t.find? (fun r => r.file_name == fn)).map Row.embedding

/-- The second query issued by `neighbors`:
`SELECT file_name, embedding <#> v AS distance FROM image_embeddings
 WHERE file_name != fn ORDER BY distance ASC LIMIT 30`, projected to names. -/
def neighborsQuery (t : Table) (v : Embedding) (fn : String) : List String :=
  (rankRows (t.filter (fun r => r.file_name != fn)) v).map Prod.fst

/-- Python truthiness of the fetched embedding value (`if embedding:`):
an empty value is falsy. -/
def truthy (v : Embedding) : Bool := !v.isEmpty

/-- Result of one request as seen by the caller: either an exception
propagated out of the route, or a rendered page carrying payload `α`. -/
inductive ReqResult (α : Type) where
  | raised
  | page (a : α)
deriving DecidableEq, Repr

/-- Outcome of one call to `clip.text_encoder`: it raises, returns a
non-vector value (`None`, so `list(text_embedding)` raises `TypeError`),
or returns a vector. -/
inductive EncOut where
  | raises
  | retNone
  | vec (v : Embedding)
deriving DecidableEq, Repr

/-- Outcome of one `psycopg2.connect` / query / close interaction with the
store: the connect itself fails; the connect succeeds but a later operation
of the block raises; or the whole block succeeds against table `t`. -/
inductive DBOutcome where
  | connectFail
  | queryFail
  | ok (t : Table)
deriving DecidableEq, Repr

/-- Connections opened during one store interaction: `psycopg2.connect`
returns a connection unless the connect itself fails. -/
def DBOutcome.openedCount : DBOutcome → Nat
  | DBOutcome.connectFail => 0
  | DBOutcome.queryFail => 1
  | DBOutcome.ok _ => 1

/-- Connections closed during one store interaction: `conn.close()` sits
inside the `try:` block, so it only runs when nothing before it raised. -/
def DBOutcome.closedCount : DBOutcome → Nat
  | DBOutcome.connectFail => 0
  | DBOutcome.queryFail => 0
  | DBOutcome.ok _ => 1

/-- Observable resource usage of one request: encoder invocations, store
connections opened, store connections closed. -/
structure ConnStats where
  encCalls : Nat
  opened : Nat
  closed : Nat
deriving DecidableEq, Repr

/-- The `index` route (text search). `q` is the raw `?q=` parameter; it is
stripped, an empty result short-circuits, otherwise the encoder runs
outside any `try:` (its exception propagates) and the store interaction is
wrapped in `try: ... except: images = []`. The first component is the data
rendered (images and echoed query) or a propagated exception; the second
is the resource trace. -/
def index (enc : String → EncOut) (db : DBOutcome) (q : String) :
    ReqResult (List String × String) × ConnStats :=
  let query := pyStrip q
  if query = "" then (ReqResult.page ([], query), ⟨0, 0, 0⟩)
  else
    match enc query with
    | EncOut.raises => (ReqResult.raised, ⟨1, 0, 0⟩)
    | EncOut.retNone => (ReqResult.raised, ⟨1, 0, 0⟩)
    | EncOut.vec v =>
      match db with
      | DBOutcome.connectFail => (ReqResult.page ([], query), ⟨1, 0, 0⟩)
      | DBOutcome.queryFail => (ReqResult.page ([], query), ⟨1, 1, 0⟩)
      | DBOutcome.ok t => (ReqResult.page (nearestQuery t v, query), ⟨1, 1, 1⟩)

/-- The `neighbors` route (exemplar search on `fn`). The embedding lookup
and the nearest-neighbor query each run on their own connection (`db1`,
`db2`), each wrapped in its own `try:`/`except:`; the second interaction
happens only when the looked-up embedding is truthy. The route itself
never raises: it always renders `(images, query=None)`. -/
def neighbors (db1 db2 : DBOutcome) (fn : String) :
    (List String × Option String) × ConnStats :=
  let emb : Option Embedding :=
    match db1 with
    | DBOutcome.ok t => lookupQuery t fn
    | _ => none
  match emb with
  | some v =>
    if truthy v then
      let images :=
        match db2 with
        | DBOutcome.ok t2 => neighborsQuery t2 v fn
        | _ => []
      ((images, none),
        ⟨0, db1.openedCount + db2.openedCount, db1.closedCount + db2.closedCount⟩)
    else (([], none), ⟨0, db1.openedCount, db1.closedCount⟩)
  | none => (([], none), ⟨0, db1.openedCount, db1.closedCount⟩)

/-- Sanity: a concrete end-to-end run of the text route. With query vector
`[1]`, row `a` (embedding `[2]`, distance `-2`) ranks before row `b`
(embedding `[1]`, distance `-1`), and the query is echoed stripped. -/
theorem sanity_index_run :
    (index (fun _ => EncOut.vec [1]) (DBOutcome.ok [⟨"a", [2]⟩, ⟨"b", [1]⟩]) " x ").1
      = ReqResult.page (["a", "b"], "x") := by decide

/-- Sanity: the model of `str.strip()` on a whitespace-only string. -/
theorem sanity_pyStrip : pyStrip "   " = "" := by decide

/-- Sanity: a concrete end-to-end run of the exemplar route excludes the
exemplar itself. -/
theorem sanity_neighbors_run :
    (neighbors (DBOutcome.ok [⟨"a", [2]⟩, ⟨"b", [1]⟩])
      (DBOutcome.ok [⟨"a", [2]⟩, ⟨"b", [1]⟩]) "a").1
      = (["b"], none) := by decide

/-- The ranked list returns `min 30 rows.length` entries. -/
theorem length_rankRows (rows : List Row) (v : Embedding) :
    (rankRows rows v).length = min 30 rows.length := by
  simp [rankRows, List.length_take, List.length_insertionSort, annotate]

/-- The ranked list is a within-cap slice of the sorted annotated rows, so
its distances are pairwise non-decreasing. -/
theorem rankRows_pairwise (rows : List Row) (v : Embedding) :
    (rankRows rows v).Pairwise (fun a b => a.2 ≤ b.2) := by
  have h := List.sorted_insertionSort distR (annotate rows v)
  exact (List.Pairwise.sublist (List.take_sublist 30 _) h).imp (fun hab => hab)

/-- Stability of the modelled `ORDER BY`: a pair of annotated rows that
appears in row order with non-decreasing distances appears in the same
order in the sorted sequence. -/
theorem rankRows_stable (rows : List Row) (v : Embedding) (a b : String × ℤ)
    (h : List.Sublist [a, b] (annotate rows v)) (hab : a.2 ≤ b.2) :
    List.Sublist [a, b] ((annotate rows v).insertionSort distR) :=
  List.pair_sublist_insertionSort hab h

/-- The exemplar SQL filters out the excluded file name before ranking. -/
theorem not_mem_neighborsQuery (t : Table) (v : Embedding) (fn : String) :
    fn ∉ neighborsQuery t v fn := by
  intro h
  simp only [neighborsQuery, rankRows, List.mem_map] at h
  obtain ⟨p, hp, hfst⟩ := h
  have hp2 := List.mem_of_mem_take hp
  rw [List.mem_insertionSort] at hp2
  simp only [annotate, List.mem_map, List.mem_filter] at hp2
  obtain ⟨r, ⟨_, hrne⟩, hrp⟩ := hp2
  rw [bne_iff_ne] at hrne
  exact hrne (by rw [← hfst, ← hrp])

/-- On the exemplar route, a failed second store interaction degrades to an
empty page whatever the first interaction produced. -/
theorem neighbors_db2_fail (t : Table) (db2 : DBOutcome) (fn : String)
    (h2 : db2 = DBOutcome.connectFail ∨ db2 = DBOutcome.queryFail) :
    (neighbors (DBOutcome.ok t) db2 fn).1 = ([], none) := by
  unfold neighbors
  cases h : lookupQuery t fn with
  | none => simp [h]
  | some v =>
    rcases h2 with rfl | rfl <;> by_cases hv : truthy v = true <;> simp [h, hv]

/-- C1: if any store interaction fails (the connect or a later operation of
the block), the route still returns a rendered page with an empty image
list and no store exception propagates: the text route degrades once the
encoder produced a vector, and the exemplar route degrades whether the
failing interaction is the embedding lookup or the nearest-neighbor
query. -/
theorem store_failure_degrades_to_empty
    (enc : String → EncOut) (q fn : String) (v : Embedding)
    (db db1 db2 : DBOutcome)
    (hq : pyStrip q ≠ "") (he : enc (pyStrip q) = EncOut.vec v)
    (hdb : db = DBOutcome.connectFail ∨ db = DBOutcome.queryFail)
    (hdb1 : db1 = DBOutcome.connectFail ∨ db1 = DBOutcome.queryFail)
    (hdb2 : db2 = DBOutcome.connectFail ∨ db2 = DBOutcome.queryFail) :
    (index enc db q).1 = ReqResult.page ([], pyStrip q)
    ∧ (∀ dbx : DBOutcome, (neighbors db1 dbx fn).1 = ([], none))
    ∧ (∀ t : Table, (neighbors (DBOutcome.ok t) db2 fn).1 = ([], none)) := by
  refine ⟨?_, ?_, fun t => neighbors_db2_fail t db2 fn hdb2⟩
  · rcases hdb with rfl | rfl <;> simp [index, hq, he]
  · intro dbx
    rcases hdb1 with rfl | rfl <;> simp [neighbors]

/-- C1 witness. -/
theorem store_failure_degrades_to_empty_witness :
    (index (fun _ => EncOut.vec [1]) DBOutcome.connectFail "red car").1
        = ReqResult.page ([], pyStrip "red car")
    ∧ (∀ dbx : DBOutcome, (neighbors DBOutcome.queryFail dbx "img7").1 = ([], none))
    ∧ (∀ t : Table, (neighbors (DBOutcome.ok t) DBOutcome.connectFail "img7").1
        = ([], none)) :=
  store_failure_degrades_to_empty (fun _ => EncOut.vec [1]) "red car" "img7" [1]
    DBOutcome.connectFail DBOutcome.queryFail DBOutcome.connectFail
    (by decide) rfl (Or.inl rfl) (Or.inr rfl) (Or.inl rfl)

/-- C2 fails on the code: `clip.text_encoder` is called outside the
`try:`/`except:` block of `index`, so an encoder exception propagates to
the caller instead of producing an empty result list. Concrete
counterexample: the request raises. -/
theorem encoder_failure_propagates_cex :
    (index (fun _ => EncOut.raises) (DBOutcome.ok []) "red car").1
      = ReqResult.raised := by decide

/-- C2 amended: for every non-empty text query, if the encoder raises, or
returns no vector (so the conversion `list(text_embedding)` raises), the
exception propagates to the caller and no page is rendered; encoding
failure is never converted into an empty result list. -/
theorem encoder_failure_raises
    (enc : String → EncOut) (db : DBOutcome) (q : String)
    (hq : pyStrip q ≠ "")
    (he : enc (pyStrip q) = EncOut.raises ∨ enc (pyStrip q) = EncOut.retNone) :
    (index enc db q).1 = ReqResult.raised := by
  rcases he with he | he <;> simp [index, hq, he]

/-- C2 amended witness. -/
theorem encoder_failure_raises_witness :
    (index (fun _ => EncOut.retNone) DBOutcome.connectFail "cat").1
      = ReqResult.raised :=
  encoder_failure_raises (fun _ => EncOut.retNone) DBOutcome.connectFail "cat"
    (by decide) (Or.inr rfl)

/-- C3: an exemplar query on identifier `fn` never returns `fn`, whatever
the store interactions produce: the nearest-neighbor SQL filters the
identifier out before ranking. -/
theorem exemplar_never_returned (db1 db2 : DBOutcome) (fn : String) :
    fn ∉ (neighbors db1 db2 fn).1.1 := by
  unfold neighbors
  cases db1 with
  | connectFail => simp
  | queryFail => simp
  | ok t =>
    cases h : lookupQuery t fn with
    | none => simp [h]
    | some v =>
      by_cases hv : truthy v = true
      · cases db2 with
        | connectFail => simp [h, hv]
        | queryFail => simp [h, hv]
        | ok t2 => simpa [h, hv] using not_mem_neighborsQuery t2 v fn
      · simp [h, hv]

/-- C3 witness. -/
theorem exemplar_never_returned_witness :
    "img7" ∉ (neighbors (DBOutcome.ok [⟨"img7", [2]⟩, ⟨"img8", [1]⟩])
      (DBOutcome.ok [⟨"img7", [2]⟩, ⟨"img8", [1]⟩]) "img7").1.1 :=
  exemplar_never_returned (DBOutcome.ok [⟨"img7", [2]⟩, ⟨"img8", [1]⟩])
    (DBOutcome.ok [⟨"img7", [2]⟩, ⟨"img8", [1]⟩]) "img7"

/-- C4: when a query reaches the store and the store interaction succeeds,
the number of identifiers returned is exactly `min 30 (eligible rows)`:
every row is eligible on the text route, every row with a different file
name on the exemplar route. In particular it never exceeds 30 and equals
30 as soon as 30 eligible rows exist. -/
theorem results_length_eq_min_cap
    (enc : String → EncOut) (q fn : String) (v w : Embedding) (t t1 t2 : Table)
    (hq : pyStrip q ≠ "") (he : enc (pyStrip q) = EncOut.vec v)
    (hl : lookupQuery t1 fn = some w) (hw : truthy w = true) :
    (∃ imgs, (index enc (DBOutcome.ok t) q).1 = ReqResult.page (imgs, pyStrip q)
      ∧ imgs.length = min 30 t.length)
    ∧ (neighbors (DBOutcome.ok t1) (DBOutcome.ok t2) fn).1.1.length
        = min 30 (t2.filter (fun r => r.file_name != fn)).length := by
  constructor
  · refine ⟨nearestQuery t v, ?_, ?_⟩
    · simp [index, hq, he]
    · simp [nearestQuery, length_rankRows]
  · unfold neighbors
    simp [hl, hw, neighborsQuery, length_rankRows]

/-- A one-row sample table for witnesses of the text route. -/
def sampleT : Table := [⟨"a", [5]⟩]

/-- A sample table holding the exemplar row for witnesses. -/
def sampleT1 : Table := [⟨"img7", [2]⟩]

/-- A two-row sample table for witnesses of the exemplar route. -/
def sampleT2 : Table := [⟨"img7", [2]⟩, ⟨"img8", [3]⟩]

/-- C4 witness. -/
theorem results_length_eq_min_cap_witness :
    (∃ imgs, (index (fun _ => EncOut.vec [1]) (DBOutcome.ok sampleT) "red car").1
        = ReqResult.page (imgs, pyStrip "red car")
      ∧ imgs.length = min 30 sampleT.length)
    ∧ (neighbors (DBOutcome.ok sampleT1) (DBOutcome.ok sampleT2) "img7").1.1.length
        = min 30 (sampleT2.filter (fun r => r.file_name != "img7")).length :=
  results_length_eq_min_cap (fun _ => EncOut.vec [1]) "red car" "img7" [1] [2]
    sampleT sampleT1 sampleT2
    (by decide) rfl (by decide) (by decide)

/-- C5: on both routes a successful run returns exactly the file names of
`rankRows` (the annotated rows stably sorted by ascending store distance,
cut at 30); the distances along that list are non-decreasing; and the sort
is stable: two annotated rows in row order with non-decreasing distances
(in particular, ties) keep their relative order in the sorted sequence. -/
theorem results_sorted_by_distance
    (enc : String → EncOut) (q fn : String) (v w : Embedding) (t t1 t2 : Table)
    (hq : pyStrip q ≠ "") (he : enc (pyStrip q) = EncOut.vec v)
    (hl : lookupQuery t1 fn = some w) (hw : truthy w = true) :
    ((index enc (DBOutcome.ok t) q).1
        = ReqResult.page ((rankRows t v).map Prod.fst, pyStrip q)
      ∧ (rankRows t v).Pairwise (fun a b => a.2 ≤ b.2))
    ∧ ((neighbors (DBOutcome.ok t1) (DBOutcome.ok t2) fn).1.1
        = (rankRows (t2.filter (fun r => r.file_name != fn)) w).map Prod.fst
      ∧ (rankRows (t2.filter (fun r => r.file_name != fn)) w).Pairwise
          (fun a b => a.2 ≤ b.2))
    ∧ (∀ (rows : List Row) (u : Embedding) (a b : String × ℤ),
        List.Sublist [a, b] (annotate rows u) → a.2 ≤ b.2 →
        List.Sublist [a, b] ((annotate rows u).insertionSort distR)) := by
  refine ⟨⟨?_, rankRows_pairwise t v⟩, ⟨?_, rankRows_pairwise _ w⟩,
    fun rows u a b h hab => rankRows_stable rows u a b h hab⟩
  · simp [index, hq, he, nearestQuery]
  · unfold neighbors
    simp [hl, hw, neighborsQuery]

/-- C5 witness. -/
theorem results_sorted_by_distance_witness :
    ((index (fun _ => EncOut.vec [1]) (DBOutcome.ok sampleT) "red car").1
        = ReqResult.page ((rankRows sampleT [1]).map Prod.fst, pyStrip "red car")
      ∧ (rankRows sampleT [1]).Pairwise (fun a b => a.2 ≤ b.2))
    ∧ ((neighbors (DBOutcome.ok sampleT1) (DBOutcome.ok sampleT2) "img7").1.1
        = (rankRows (sampleT2.filter (fun r => r.file_name != "img7")) [2]).map Prod.fst
      ∧ (rankRows (sampleT2.filter (fun r => r.file_name != "img7")) [2]).Pairwise
          (fun a b => a.2 ≤ b.2))
    ∧ (∀ (rows : List Row) (u : Embedding) (a b : String × ℤ),
        List.Sublist [a, b] (annotate rows u) → a.2 ≤ b.2 →
        List.Sublist [a, b] ((annotate rows u).insertionSort distR)) :=
  results_sorted_by_distance (fun _ => EncOut.vec [1]) "red car" "img7" [1] [2]
    sampleT sampleT1 sampleT2
    (by decide) rfl (by decide) (by decide)

/-- C6: a text query that strips to the empty string renders an empty page
with the empty echo, calls the encoder zero times and opens zero store
connections, and its outcome is independent of the encoder and the store. -/
theorem empty_text_short_circuit
    (q : String) (hq : pyStrip q = "")
    (enc enc2 : String → EncOut) (db db2 : DBOutcome) :
    index enc db q = (ReqResult.page ([], ""), ⟨0, 0, 0⟩)
    ∧ index enc db q = index enc2 db2 q := by
  constructor <;> simp [index, hq]

/-- C6 witness. -/
theorem empty_text_short_circuit_witness :
    index (fun _ => EncOut.raises) DBOutcome.queryFail "   "
      = (ReqResult.page ([], ""), ⟨0, 0, 0⟩)
    ∧ index (fun _ => EncOut.raises) DBOutcome.queryFail "   "
      = index (fun _ => EncOut.vec [1]) DBOutcome.connectFail "   " :=
  empty_text_short_circuit "   " (by decide) (fun _ => EncOut.raises)
    (fun _ => EncOut.vec [1]) DBOutcome.queryFail DBOutcome.connectFail

/-- C7: an exemplar query whose identifier has no row in the store, or whose
embedding-lookup interaction fails (connect or query), renders an empty
page. -/
theorem exemplar_miss_returns_empty
    (fn : String) (t : Table) (db2 : DBOutcome)
    (hmiss : lookupQuery t fn = none) :
    (neighbors (DBOutcome.ok t) db2 fn).1 = ([], none)
    ∧ (neighbors DBOutcome.connectFail db2 fn).1 = ([], none)
    ∧ (neighbors DBOutcome.queryFail db2 fn).1 = ([], none) := by
  refine ⟨?_, by simp [neighbors], by simp [neighbors]⟩
  unfold neighbors
  simp [hmiss]

/-- C7 witness. -/
theorem exemplar_miss_returns_empty_witness :
    (neighbors (DBOutcome.ok [⟨"img7", [1]⟩]) (DBOutcome.ok []) "ghost").1 = ([], none)
    ∧ (neighbors DBOutcome.connectFail (DBOutcome.ok []) "ghost").1 = ([], none)
    ∧ (neighbors DBOutcome.queryFail (DBOutcome.ok []) "ghost").1 = ([], none) :=
  exemplar_miss_returns_empty "ghost" [⟨"img7", [1]⟩] (DBOutcome.ok []) (by decide)

/-- C8: text search is deterministic in its inputs: two invocations on the
same query string, against the same store outcome and encoders that agree
on the stripped query, return identical pages (same ordered image list and
echo) and identical resource traces. -/
theorem search_deterministic
    (enc enc2 : String → EncOut) (db db2 : DBOutcome) (q : String)
    (henc : enc (pyStrip q) = enc2 (pyStrip q)) (hdb : db = db2) :
    index enc db q = index enc2 db2 q := by
  subst hdb
  by_cases hq : pyStrip q = "" <;> simp [index, hq, henc]

/-- C8 witness. -/
theorem search_deterministic_witness :
    index (fun _ => EncOut.vec [1]) (DBOutcome.ok [⟨"a", [5]⟩]) "red car"
      = index (fun _ => EncOut.vec [1]) (DBOutcome.ok [⟨"a", [5]⟩]) "red car" :=
  search_deterministic (fun _ => EncOut.vec [1]) (fun _ => EncOut.vec [1])
    (DBOutcome.ok [⟨"a", [5]⟩]) (DBOutcome.ok [⟨"a", [5]⟩]) "red car" rfl rfl

/-- C9 fails on the code: `conn.close()` sits inside the `try:` block with
no `finally`, so a store failure after a successful connect completes the
request with an empty page while the connection opened by the request is
never closed. Concrete counterexample: one connection opened, zero
closed, yet the search completed successfully. -/
theorem connection_leak_cex :
    (index (fun _ => EncOut.vec [1]) DBOutcome.queryFail "x")
      = (ReqResult.page ([], "x"), ⟨1, 1, 0⟩) := by decide

/-- C9 amended: a request closes every connection it opened on exactly the
runs in which no store interaction raises after its connect succeeded
(full success or connect-time failure); a failure between connect and
close leaves that connection unclosed. -/
theorem connections_closed_unless_midquery_failure
    (enc : String → EncOut) (q fn : String) (db db1 db2 : DBOutcome)
    (h : db ≠ DBOutcome.queryFail) (h1 : db1 ≠ DBOutcome.queryFail)
    (h2 : db2 ≠ DBOutcome.queryFail) :
    (index enc db q).2.opened = (index enc db q).2.closed
    ∧ (neighbors db1 db2 fn).2.opened = (neighbors db1 db2 fn).2.closed := by
  constructor
  · unfold index
    by_cases hq : pyStrip q = ""
    · simp [hq]
    · cases henc : enc (pyStrip q) with
      | raises => simp [hq, henc]
      | retNone => simp [hq, henc]
      | vec v =>
        cases db with
        | connectFail => simp [hq, henc]
        | queryFail => exact absurd rfl h
        | ok t => simp [hq, henc]
  · unfold neighbors
    cases db1 with
    | connectFail => simp [DBOutcome.openedCount, DBOutcome.closedCount]
    | queryFail => exact absurd rfl h1
    | ok t =>
      cases hl : lookupQuery t fn with
      | none => simp [hl, DBOutcome.openedCount, DBOutcome.closedCount]
      | some v =>
        by_cases hv : truthy v = true
        · cases db2 with
          | connectFail => simp [hl, hv, DBOutcome.openedCount, DBOutcome.closedCount]
          | queryFail => exact absurd rfl h2
          | ok t2 => simp [hl, hv, DBOutcome.openedCount, DBOutcome.closedCount]
        · simp [hl, hv, DBOutcome.openedCount, DBOutcome.closedCount]

/-- C9 amended witness. -/
theorem connections_closed_unless_midquery_failure_witness :
    ((index (fun _ => EncOut.vec [1]) (DBOutcome.ok [⟨"a", [5]⟩]) "red car").2.opened
      = (index (fun _ => EncOut.vec [1]) (DBOutcome.ok [⟨"a", [5]⟩]) "red car").2.closed)
    ∧ ((neighbors (DBOutcome.ok [⟨"img7", [2]⟩]) DBOutcome.connectFail "img7").2.opened
      = (neighbors (DBOutcome.ok [⟨"img7", [2]⟩]) DBOutcome.connectFail "img7").2.closed) :=
  connections_closed_unless_midquery_failure (fun _ => EncOut.vec [1]) "red car" "img7"
    (DBOutcome.ok [⟨"a", [5]⟩]) (DBOutcome.ok [⟨"img7", [2]⟩]) DBOutcome.connectFail
    (by decide) (by decide) (by decide)

/-- C10: an exemplar query whose store row is found but holds a falsy
(empty) embedding behaves exactly like a lookup miss: an empty page is
rendered, the single lookup connection is opened and closed, the
nearest-neighbor interaction never happens (the outcome is independent of
the second store outcome), and the result coincides with the result on any
identifier that has no row at all. -/
theorem falsy_embedding_treated_as_miss
    (t : Table) (fn : String) (db2 : DBOutcome) (w : Embedding)
    (hl : lookupQuery t fn = some w) (hw : truthy w = false) :
    neighbors (DBOutcome.ok t) db2 fn = (([], none), ⟨0, 1, 1⟩)
    ∧ (∀ (t2 : Table) (db2x : DBOutcome), lookupQuery t2 fn = none →
        neighbors (DBOutcome.ok t) db2 fn = neighbors (DBOutcome.ok t2) db2x fn) := by
  have hmain : neighbors (DBOutcome.ok t) db2 fn = (([], none), ⟨0, 1, 1⟩) := by
    unfold neighbors
    simp [hl, hw, DBOutcome.openedCount, DBOutcome.closedCount]
  refine ⟨hmain, fun t2 db2x hm => ?_⟩
  rw [hmain]
  unfold neighbors
  simp [hm, DBOutcome.openedCount, DBOutcome.closedCount]

/-- C10 witness. -/
theorem falsy_embedding_treated_as_miss_witness :
    neighbors (DBOutcome.ok [⟨"img7", []⟩]) (DBOutcome.ok [⟨"img8", [1]⟩]) "img7"
      = (([], none), ⟨0, 1, 1⟩)
    ∧ (∀ (t2 : Table) (db2x : DBOutcome), lookupQuery t2 "img7" = none →
        neighbors (DBOutcome.ok [⟨"img7", []⟩]) (DBOutcome.ok [⟨"img8", [1]⟩]) "img7"
          = neighbors (DBOutcome.ok t2) db2x "img7") :=
  falsy_embedding_treated_as_miss [⟨"img7", []⟩] "img7" (DBOutcome.ok [⟨"img8", [1]⟩]) []
    (by decide) (by decide)

end ImageBrowser
